import Mathlib

/-!
Verification development for the walk-forward forecasting engine of the
Stock-Price-Prediction repository (Code/models/arima/arimaModel.py,
Code/models/lstm/lstmModel.py, Code/config.py, Code/main.py, and their
snake_case near-duplicates arima_model.py / lstm_model.py, which have the
same control flow).

Modelling choices of the shallow embedding:
* Dates are integers (day numbers); `pd.DateOffset` spans and the
  one-year train/test gap are passed as integer parameters `span`/`gap`
  because calendar-year offsets have no uniform day length.
* A pandas DataFrame becomes `Table V`: a list of index dates plus a cell
  function returning `Option V` (`none` models NaN / missing).  `V` is an
  arbitrary value type so that theorems can be evaluated on `Int` cells
  (Lean's `Float` is kernel-opaque).
* External libraries (sklearn's MinMaxScaler, keras fit/predict/save,
  pmdarima's auto_arima, statsmodels' ARIMA fit/forecast, joblib.dump)
  are oracles gathered in environment records; each call returns
  `Except String _`, an `.error` modelling a raised Python exception.
* Appending `np.nan` to the prediction list is modelled as appending
  `none`; a returned `pd.Series` becomes the list of `Option V` aligned
  with the test index.
* The sequence-model state record carries a ghost field `retrains`
  counting the executions of the retrain branch; it does not influence
  control flow.
-/

namespace StockPrediction

/-- Embedding of `config.py`: `lookback = 60`. -/
def lookback : Nat := 60

/-- Embedding of `config.py`: `retrainInterval = 5`. -/
def retrainInterval : Nat := 5

/-- Embedding of `config.py`: `rollingWindowYears = 3`. -/
def rollingWindowYears : Nat := 3

/-- A date-indexed numeric table (a pandas DataFrame): the index dates in
order, and a cell lookup where `none` models a NaN entry. -/
structure Table (V : Type) where
  index : List Int
  cell : Int → String → Option V

/-- `df.index.min()`. -/
def Table.minDate {V : Type} (t : Table V) : Int :=
  (t.index.min?).getD 0

/-- `df.index.max()`. -/
def Table.maxDate {V : Type} (t : Table V) : Int :=
  (t.index.max?).getD 0

/-- Embedding of `config.getTrainEndDate`: `df.index.max() - DateOffset(years=gap_years)`,
with the calendar offset passed as the integer `gap`. -/
def getTrainEndDate {V : Type} (t : Table V) (gap : Int) : Int :=
  t.maxDate - gap

/-- `testIndex = dfTest.index[dfTest.index > trainEndDate]`: all table dates
strictly after the training cutoff. -/
def testIndexOf {V : Type} (t : Table V) (gap : Int) : List Int :=
  t.index.filter (fun d => decide (getTrainEndDate t gap < d))

/-- `df.loc[startTrain:endTrain, columns].dropna()`: the rows of the window
restricted to `cols`, keeping only rows where every selected column is
present (pandas `dropna` drops a row on any NaN). -/
def Table.windowRows {V : Type} (t : Table V) (cols : List String) (s e : Int) :
    List (List V) :=
  (t.index.filter (fun d => decide (s ≤ d) && decide (d ≤ e))).filterMap
    (fun d => cols.mapM (t.cell d))

/-- `df.loc[startTrain:endTrain, col].dropna()`: the non-missing values of one
column inside the window, in chronological order. -/
def Table.seriesWindow {V : Type} (t : Table V) (col : String) (s e : Int) :
    List V :=
  (t.index.filter (fun d => decide (s ≤ d) && decide (d ≤ e))).filterMap
    (fun d => t.cell d col)

/-- The rolling-window selector shared by both forecasters
(`arimaModel.py` lines 77-85, `lstmModel.py` lines 131-139):
`startTrain = max(df.index.min(), day - rollingWindow)`,
`endTrain = day - Timedelta(days=1)`, and the window is Invalid (`none`)
when `startTrain >= endTrain`. -/
def selectWindow (minDate day span : Int) : Option (Int × Int) :=
  let startTrain := max minDate (day - span)
  let endTrain := day - 1
  if startTrain ≥ endTrain then none else some (startTrain, endTrain)

/-! ### Sequence-model (LSTM) path, `lstmModel.py` -/

/-- Oracles for the external libraries used by the LSTM path.  `fitTransform`
is `MinMaxScaler().fit_transform` (returns the fitted scaler and the scaled
rows), `kerasFit` is the keras model construction and `model.fit`,
`saveModel`/`saveScaler` are `model.save`/`joblib.dump`, and
`transform`/`predict`/`inverseTransform` serve the per-date inference.
`zero` models a `np.zeros` entry. -/
structure LstmEnv (μ σ V : Type) where
  fitTransform : List (List V) → Except String (σ × List (List V))
  kerasFit : List (List (List V)) → List V → Except String μ
  saveModel : μ → Except String Unit
  saveScaler : σ → Except String Unit
  transform : σ → List (List V) → Except String (List (List V))
  predict : μ → List (List V) → Except String V
  inverseTransform : σ → List V → Except String (List V)
  zero : V

/-- Embedding of `createSequences` (`lstmModel.py` lines 58-65): for
`i in range(len(dataframe) - lookback)`, `x_i` is rows `[i, i+lb)` over all
columns and `y_i` is the target column's entry of row `i+lb`.  Natural
subtraction makes the range empty when the frame has at most `lb` rows,
exactly like Python's `range` of a non-positive bound. -/
def createSequences {V : Type} (rows : List (List V)) (targetIdx lb : Nat)
    (d0 : V) : List (List (List V)) × List V :=
  ((List.range (rows.length - lb)).map (fun i => (rows.drop i).take lb),
   (List.range (rows.length - lb)).map
     (fun i => ((rows.drop (i + lb)).headD []).getD targetIdx d0))

/-- Embedding of `buildAndTrainLstm` (`lstmModel.py` lines 50-82): build the
supervised sequences; if there are none, return Python `None` (`pure none`);
otherwise train the two-layer LSTM through the keras oracle. -/
def buildAndTrainLstm {μ σ V : Type} (env : LstmEnv μ σ V)
    (dfTrainScaled : List (List V)) (targetIdx lb : Nat) :
    Except String (Option μ) :=
  let seqs := createSequences dfTrainScaled targetIdx lb env.zero
  if seqs.1.length = 0 then pure none
  else (env.kerasFit seqs.1 seqs.2).map some

/-- `lstmModel.save(path)` in Python raises `AttributeError` when
`lstmModel` is `None`; otherwise it is the keras save call. -/
def saveModelObject {μ σ V : Type} (env : LstmEnv μ σ V) (m? : Option μ) :
    Except String Unit :=
  match m? with
  | none => Except.error "AttributeError"
  | some m => env.saveModel m

/-- Per-column loop state of `runLstm` (`lstmModel.py` lines 125-128):
the prediction list, the cached model and scaler, and the step counter.
`retrains` is a ghost counter of retrain-branch executions. -/
structure LstmState (μ σ V : Type) where
  preds : List (Option V)
  modelCurrent : Option μ
  scalerCurrent : Option σ
  counter : Nat
  retrains : Nat

/-- Initial per-column state: empty predictions, empty cache, counter 0. -/
def initLstmState {μ σ V : Type} : LstmState μ σ V :=
  ⟨[], none, none, 0, 0⟩

/-- Embedding of the per-date prediction try-block (`lstmModel.py` lines
200-255): gather the last `lb` index dates before `day`, bail out (`none`,
i.e. append NaN) when fewer exist, take the rows at those dates plus `day`
itself dropping incomplete rows, bail out when fewer than `lb + 1` remain,
then scale, predict, build the zero vector with the prediction at the
target column's index, inverse-transform and extract that index.  Any
oracle `.error` (a caught exception) also yields `none`. -/
def lstmPredictPhase {μ σ V : Type} (t : Table V) (cols : List String)
    (target : String) (lb : Nat) (env : LstmEnv μ σ V) (m : μ) (sc : σ)
    (day : Int) : Option V :=
  let ltIdx := t.index.filter (fun d => decide (d < day))
  let pastIdx := ltIdx.drop (ltIdx.length - lb)
  if pastIdx.length < lb then none
  else
    let dfTestWindow := (pastIdx ++ [day]).filterMap (fun d => cols.mapM (t.cell d))
    if dfTestWindow.length < lb + 1 then none
    else
      match env.transform sc dfTestWindow with
      | Except.error _ => none
      | Except.ok scaledWindow =>
        match env.predict m (scaledWindow.take lb) with
        | Except.error _ => none
        | Except.ok yPredScaled =>
          let colIdx := cols.indexOf target
          let tempInput := (List.range cols.length).map
            (fun j => if j = colIdx then yPredScaled else env.zero)
          match env.inverseTransform sc tempInput with
          | Except.error _ => none
          | Except.ok inv => some (inv.getD colIdx env.zero)

/-- Embedding of `lstmModel.py` lines 196-255: the `None` guard on the
local model/scaler followed by the prediction try-block; exactly one
prediction entry is appended. -/
def lstmAfterBranch {μ σ V : Type} (t : Table V) (cols : List String)
    (target : String) (lb : Nat) (env : LstmEnv μ σ V)
    (st : LstmState μ σ V) (m? : Option μ) (sc? : Option σ) (day : Int) :
    LstmState μ σ V :=
  match m?, sc? with
  | some m, some sc =>
      { st with preds := st.preds ++ [lstmPredictPhase t cols target lb env m sc day] }
  | _, _ => { st with preds := st.preds ++ [none] }

/-- One iteration of the walk-forward loop of `runLstm`
(`lstmModel.py` lines 130-255) for evaluation date `day`:
window selection, the `lookback + 1` row check, the counter increment,
the retrain branch (scaler fit, training, cache assignment, model and
scaler save — note the cache assignment of lines 176-177 precedes the
saves of lines 184-185, so a save failure leaves the fresh cache in
place), the reuse branch, and the prediction phase. -/
def lstmStep {μ σ V : Type} (t : Table V) (cols : List String)
    (target : String) (span : Int) (lb ri : Nat) (env : LstmEnv μ σ V)
    (st : LstmState μ σ V) (day : Int) : LstmState μ σ V :=
  match selectWindow t.minDate day span with
  | none => { st with preds := st.preds ++ [none] }
  | some (startTrain, endTrain) =>
    let dfWindow := t.windowRows cols startTrain endTrain
    if dfWindow.length < lb + 1 then { st with preds := st.preds ++ [none] }
    else
      let counter := st.counter + 1
      if counter % ri = 0 ∨ st.modelCurrent.isNone then
        match env.fitTransform dfWindow with
        | Except.error _ =>
            { st with counter := counter, retrains := st.retrains + 1,
                      preds := st.preds ++ [none] }
        | Except.ok (scaler, scaledTrain) =>
          match buildAndTrainLstm env scaledTrain (cols.indexOf target) lb with
          | Except.error _ =>
              { st with counter := counter, retrains := st.retrains + 1,
                        preds := st.preds ++ [none] }
          | Except.ok m? =>
            let st1 : LstmState μ σ V :=
              { st with counter := counter, retrains := st.retrains + 1,
                        modelCurrent := m?, scalerCurrent := some scaler }
            match saveModelObject env m? with
            | Except.error _ => { st1 with preds := st1.preds ++ [none] }
            | Except.ok _ =>
              match env.saveScaler scaler with
              | Except.error _ => { st1 with preds := st1.preds ++ [none] }
              | Except.ok _ =>
                  lstmAfterBranch t cols target lb env st1 m? (some scaler) day
      else
        lstmAfterBranch t cols target lb env { st with counter := counter }
          st.modelCurrent st.scalerCurrent day

/-- The full walk-forward sweep of `runLstm` for one target column. -/
def runLstmColumn {μ σ V : Type} (t : Table V) (cols : List String)
    (target : String) (span gap : Int) (lb ri : Nat)
    (env : LstmEnv μ σ V) : LstmState μ σ V :=
  (testIndexOf t gap).foldl (lstmStep t cols target span lb ri env) initLstmState

/-- Embedding of `runLstm` (`lstmModel.py` lines 96-262): one prediction
series per target column, each aligned with the test index. -/
def runLstm {μ σ V : Type} (t : Table V) (cols : List String)
    (span gap : Int) (lb ri : Nat) (env : LstmEnv μ σ V) :
    List (String × List (Option V)) :=
  cols.map (fun target => (target, (runLstmColumn t cols target span gap lb ri env).preds))

/-! ### Autoregressive (ARIMA) path, `arimaModel.py` -/

/-- Oracles for the external libraries used by the ARIMA path:
`autoArima` is `pmdarima.auto_arima` returning the selected order triple,
`fit` is `ARIMA(yTrain, order=bestOrder).fit()`, `forecastOne` is
`model.forecast(steps=1)` followed by `.iloc[0]`, and `saveModel` is
`joblib.dump`. -/
structure ArimaEnv (μ V : Type) where
  autoArima : List V → Except String (Nat × Nat × Nat)
  fit : List V → Nat × Nat × Nat → Except String μ
  forecastOne : μ → Except String V
  saveModel : μ → Except String Unit

/-- Per-column loop state of `runArima` (`arimaModel.py` lines 73-74):
the prediction list and the last successfully fitted model. -/
structure ArimaState (μ V : Type) where
  preds : List (Option V)
  lastModel : Option μ

/-- Initial per-column ARIMA state. -/
def initArimaState {μ V : Type} : ArimaState μ V :=
  ⟨[], none⟩

/-- One iteration of the walk-forward loop of `runArima`
(`arimaModel.py` lines 76-127): window selection, the minimum-5-rows
check, then the try-block running order search, fit and one-step
forecast; any caught exception appends NaN and leaves `lastModel`
unchanged. -/
def arimaStep {μ V : Type} (t : Table V) (col : String) (span : Int)
    (env : ArimaEnv μ V) (st : ArimaState μ V) (day : Int) : ArimaState μ V :=
  match selectWindow t.minDate day span with
  | none => { st with preds := st.preds ++ [none] }
  | some (startTrain, endTrain) =>
    let yTrain := t.seriesWindow col startTrain endTrain
    if yTrain.length < 5 then { st with preds := st.preds ++ [none] }
    else
      match env.autoArima yTrain with
      | Except.error _ => { st with preds := st.preds ++ [none] }
      | Except.ok bestOrder =>
        match env.fit yTrain bestOrder with
        | Except.error _ => { st with preds := st.preds ++ [none] }
        | Except.ok model =>
          match env.forecastOne model with
          | Except.error _ => { st with preds := st.preds ++ [none] }
          | Except.ok pred =>
              { preds := st.preds ++ [some pred], lastModel := some model }

/-- The full walk-forward sweep of `runArima` for one column. -/
def runArimaColumn {μ V : Type} (t : Table V) (col : String)
    (span gap : Int) (env : ArimaEnv μ V) : ArimaState μ V :=
  (testIndexOf t gap).foldl (arimaStep t col span env) initArimaState

/-- Result of `runArima`: the forecast series per column, plus the list of
columns whose last fitted model is persisted at the end of the loop
(`arimaModel.py` lines 140-146: attempted only `if retrain and lastModel`,
a save exception being caught and logged). -/
structure ArimaResult (V : Type) where
  forecasts : List (String × List (Option V))
  savedColumns : List String

/-- Embedding of `runArima` (`arimaModel.py` lines 51-148).  The `retrain`
flag is consulted only when deciding whether to persist each column's last
fitted model. -/
def runArima {μ V : Type} (t : Table V) (cols : List String)
    (span gap : Int) (env : ArimaEnv μ V) (retrain : Bool) : ArimaResult V :=
  { forecasts := cols.map
      (fun col => (col, (runArimaColumn t col span gap env).preds)),
    savedColumns :=
      if retrain then
        cols.filter (fun col => (runArimaColumn t col span gap env).lastModel.isSome)
      else [] }

/-! ### Evaluator, `main.py` lines 91-140 -/

/-- `series.dropna().index`: the dates of the test index whose prediction
entry is present. -/
def seriesDropnaIndex {V : Type} (idx : List Int) (preds : List (Option V)) :
    List Int :=
  (idx.zip preds).filterMap (fun p => p.2.map (fun _ => p.1))

/-- `a.intersection(b)` on date indices (order of `a`, members of both). -/
def indexInter (a b : List Int) : List Int :=
  a.filter (fun d => b.contains d)

/-- `main.py` lines 91-93: the common test index — dates where both model
families produced a non-missing prediction for both hard-coded target
columns Open and Close. -/
def mainTestIndex {V : Type} (idx : List Int)
    (arimaOpen arimaClose lstmOpen lstmClose : List (Option V)) : List Int :=
  indexInter
    (indexInter (seriesDropnaIndex idx arimaOpen) (seriesDropnaIndex idx arimaClose))
    (indexInter (seriesDropnaIndex idx lstmOpen) (seriesDropnaIndex idx lstmClose))

/-- `validIndex = actuals.index ∩ arimaPreds.index ∩ lstmPreds.index`
(`main.py` lines 117-120): `actuals.index` is the common test index, and
each model's index after `reindex(testIndex).dropna()` keeps the dates
where that model's prediction is present — ground-truth NaNs are not
filtered here. -/
def evalValidIndex {V : Type} (commonIdx : List Int)
    (arimaAt lstmAt : Int → Option V) : List Int :=
  commonIdx.filter (fun d => (arimaAt d).isSome && (lstmAt d).isSome)

/-- Per-column evaluation block of `main.py` lines 115-140: if the aligned
series is empty, report "no valid forecast" (`none`) and compute no metric;
otherwise compute the two models' RMSE and MAPE through the sklearn
oracles over the valid dates.  Ground-truth cells are looked up in the
table (possibly `none`, as `df.loc` keeps NaN entries). -/
def evaluateColumn {V M : Type} (truthAt arimaAt lstmAt : Int → Option V)
    (commonIdx : List Int)
    (rmse mape : List (Option V) → List V → M) : Option (M × M × M × M) :=
  let validIndex := evalValidIndex commonIdx arimaAt lstmAt
  if validIndex.isEmpty then none
  else
    let actuals := validIndex.map truthAt
    let arimaVals := validIndex.filterMap arimaAt
    let lstmVals := validIndex.filterMap lstmAt
    some (rmse actuals arimaVals, rmse actuals lstmVals,
          mape actuals arimaVals, mape actuals lstmVals)

/-! ### Concrete instances used to evaluate the development -/

/-- The two hard-coded target columns of the repository. -/
def cols2 : List String := ["Open", "Close"]

/-- Ten consecutive fully-populated trading days with every cell present
(the scenario of spec section 8). -/
def tenDays : Table Int :=
  { index := [0, 1, 2, 3, 4, 5, 6, 7, 8, 9], cell := fun _ _ => some 1 }

/-- A table whose only complete row is day 0: calendar windows are wide
but almost all rows are missing. -/
def sparseTable : Table Int :=
  { index := [0, 1, 2, 3, 4, 5, 6, 7, 8, 9],
    cell := fun d _ => if d = 0 then some 1 else none }

/-- An always-succeeding LSTM oracle over integer cells with trivial model
and scaler objects: scaling is the identity and prediction returns 0. -/
def envOK : LstmEnv Unit Unit Int :=
  { fitTransform := fun rows => Except.ok ((), rows),
    kerasFit := fun _ _ => Except.ok (),
    saveModel := fun _ => Except.ok (),
    saveScaler := fun _ => Except.ok (),
    transform := fun _ rows => Except.ok rows,
    predict := fun _ _ => Except.ok 0,
    inverseTransform := fun _ v => Except.ok v,
    zero := 0 }

/-- An LSTM oracle whose scaler fit always raises. -/
def envFitFails : LstmEnv Unit Unit Int :=
  { envOK with fitTransform := fun _ => Except.error "fit failed" }

/-- An LSTM oracle that trains successfully but whose model save always
raises. -/
def envSaveFails : LstmEnv Unit Unit Int :=
  { envOK with saveModel := fun _ => Except.error "save failed" }

/-- An always-succeeding ARIMA oracle. -/
def aenvOK : ArimaEnv Unit Int :=
  { autoArima := fun _ => Except.ok (1, 1, 1),
    fit := fun _ _ => Except.ok (),
    forecastOne := fun _ => Except.ok 0,
    saveModel := fun _ => Except.ok () }

/-- An ARIMA oracle whose order search always raises. -/
def aenvFails : ArimaEnv Unit Int :=
  { aenvOK with autoArima := fun _ => Except.error "auto_arima failed" }

/-- The initial sequence-model loop state at the witness types. -/
def initL : LstmState Unit Unit Int := initLstmState

/-- The initial autoregressive loop state at the witness types. -/
def initA : ArimaState Unit Int := initArimaState

/-- Three scaled rows with two feature columns, for exercising the
sequence builder. -/
def rows3 : List (List Int) := [[1, 2], [3, 4], [5, 6]]

/-- Ground truth that is present on every date. -/
def truthOne : Int → Option Int := fun _ => some 1

/-- A prediction series that is missing on every date. -/
def noneAt : Int → Option Int := fun _ => none

/-- Model-cache invariant of the sequence-model sweep: either the cache is
still empty (no valid date seen), or the counter is positive, model and
scaler are cached, and the number of retrain-branch executions is
`counter / ri + 1`. -/
def LstmInv {μ σ V : Type} (ri : Nat) (st : LstmState μ σ V) : Prop :=
  (st.counter = 0 ∧ st.modelCurrent = none ∧ st.retrains = 0)
  ∨ (1 ≤ st.counter ∧ st.modelCurrent.isSome ∧ st.scalerCurrent.isSome
      ∧ st.retrains = st.counter / ri + 1)

/-! ### Helper lemmas -/

theorem lstmAfterBranch_preds {μ σ V : Type} (t : Table V) (cols : List String)
    (target : String) (lb : Nat) (env : LstmEnv μ σ V)
    (st : LstmState μ σ V) (m? : Option μ) (sc? : Option σ) (day : Int) :
    ∃ x, (lstmAfterBranch t cols target lb env st m? sc? day).preds
          = st.preds ++ [x] := by
  cases m? <;> cases sc? <;> simp [lstmAfterBranch]

theorem lstmStep_preds {μ σ V : Type} (t : Table V) (cols : List String)
    (target : String) (span : Int) (lb ri : Nat) (env : LstmEnv μ σ V)
    (st : LstmState μ σ V) (day : Int) :
    ∃ x, (lstmStep t cols target span lb ri env st day).preds
          = st.preds ++ [x] := by
  unfold lstmStep
  split
  · exact ⟨none, rfl⟩
  · dsimp only
    split
    · exact ⟨none, rfl⟩
    · split
      · split
        · exact ⟨none, rfl⟩
        · split
          · exact ⟨none, rfl⟩
          · split
            · exact ⟨none, rfl⟩
            · split
              · exact ⟨none, rfl⟩
              · exact lstmAfterBranch_preds ..
      · exact lstmAfterBranch_preds ..

theorem lstmStep_preds_length {μ σ V : Type} (t : Table V) (cols : List String)
    (target : String) (span : Int) (lb ri : Nat) (env : LstmEnv μ σ V)
    (st : LstmState μ σ V) (day : Int) :
    (lstmStep t cols target span lb ri env st day).preds.length
      = st.preds.length + 1 := by
  obtain ⟨x, hx⟩ := lstmStep_preds t cols target span lb ri env st day
  simp [hx]

theorem lstmFoldl_preds_length {μ σ V : Type} (t : Table V) (cols : List String)
    (target : String) (span : Int) (lb ri : Nat) (env : LstmEnv μ σ V)
    (days : List Int) (st : LstmState μ σ V) :
    ((days.foldl (lstmStep t cols target span lb ri env) st).preds.length)
      = st.preds.length + days.length := by
  induction days generalizing st with
  | nil => simp
  | cons d ds ih =>
      simp only [List.foldl_cons, ih, lstmStep_preds_length, List.length_cons]
      omega

theorem arimaStep_preds {μ V : Type} (t : Table V) (col : String) (span : Int)
    (env : ArimaEnv μ V) (st : ArimaState μ V) (day : Int) :
    ∃ x, (arimaStep t col span env st day).preds = st.preds ++ [x] := by
  unfold arimaStep
  split
  · exact ⟨none, rfl⟩
  · dsimp only
    split
    · exact ⟨none, rfl⟩
    · split
      · exact ⟨none, rfl⟩
      · split
        · exact ⟨none, rfl⟩
        · split
          · exact ⟨none, rfl⟩
          · exact ⟨_, rfl⟩

theorem arimaStep_preds_length {μ V : Type} (t : Table V) (col : String)
    (span : Int) (env : ArimaEnv μ V) (st : ArimaState μ V) (day : Int) :
    (arimaStep t col span env st day).preds.length = st.preds.length + 1 := by
  obtain ⟨x, hx⟩ := arimaStep_preds t col span env st day
  simp [hx]

theorem arimaFoldl_preds_length {μ V : Type} (t : Table V) (col : String)
    (span : Int) (env : ArimaEnv μ V) (days : List Int) (st : ArimaState μ V) :
    ((days.foldl (arimaStep t col span env) st).preds.length)
      = st.preds.length + days.length := by
  induction days generalizing st with
  | nil => simp
  | cons d ds ih =>
      simp only [List.foldl_cons, ih, arimaStep_preds_length, List.length_cons]
      omega

theorem createSequences_fst_length {V : Type} (rows : List (List V))
    (tIdx lb : Nat) (d0 : V) :
    (createSequences rows tIdx lb d0).1.length = rows.length - lb := by
  simp [createSequences]

theorem selectWindow_some {minD day span : Int}
    (h : max minD (day - span) < day - 1) :
    selectWindow minD day span = some (max minD (day - span), day - 1) := by
  unfold selectWindow
  rw [if_neg (by omega)]

theorem lstmStep_fitFail {μ σ V : Type} (t : Table V) (cols : List String)
    (target : String) (span : Int) (lb ri : Nat) (env : LstmEnv μ σ V)
    (hft : ∀ rows, ∃ msg, env.fitTransform rows = Except.error msg)
    (st : LstmState μ σ V) (hm : st.modelCurrent = none) (day : Int) :
    (lstmStep t cols target span lb ri env st day).preds = st.preds ++ [none]
    ∧ (lstmStep t cols target span lb ri env st day).modelCurrent = none := by
  cases hw : selectWindow t.minDate day span with
  | none =>
      unfold lstmStep
      rw [hw]
      exact ⟨rfl, hm⟩
  | some w =>
      obtain ⟨s, e⟩ := w
      unfold lstmStep
      rw [hw]
      dsimp only
      by_cases hlen : (t.windowRows cols s e).length < lb + 1
      · rw [if_pos hlen]
        exact ⟨rfl, hm⟩
      · rw [if_neg hlen, if_pos (Or.inr (by simp [hm]))]
        obtain ⟨msg, hmsg⟩ := hft (t.windowRows cols s e)
        rw [hmsg]
        exact ⟨rfl, hm⟩

theorem lstmFoldl_fitFail {μ σ V : Type} (t : Table V) (cols : List String)
    (target : String) (span : Int) (lb ri : Nat) (env : LstmEnv μ σ V)
    (hft : ∀ rows, ∃ msg, env.fitTransform rows = Except.error msg)
    (days : List Int) (st : LstmState μ σ V) (hm : st.modelCurrent = none) :
    (days.foldl (lstmStep t cols target span lb ri env) st).preds
      = st.preds ++ days.map (fun _ => none) := by
  induction days generalizing st with
  | nil => simp
  | cons d ds ih =>
      obtain ⟨h1, h2⟩ := lstmStep_fitFail t cols target span lb ri env hft st hm d
      simp only [List.foldl_cons, List.map_cons]
      rw [ih _ h2, h1]
      simp

theorem arimaStep_autoFail {μ V : Type} (t : Table V) (col : String)
    (span : Int) (env : ArimaEnv μ V)
    (haa : ∀ y, ∃ msg, env.autoArima y = Except.error msg)
    (st : ArimaState μ V) (day : Int) :
    arimaStep t col span env st day = { st with preds := st.preds ++ [none] } := by
  cases hw : selectWindow t.minDate day span with
  | none =>
      unfold arimaStep
      rw [hw]
  | some w =>
      obtain ⟨s, e⟩ := w
      unfold arimaStep
      rw [hw]
      dsimp only
      by_cases hlen : (t.seriesWindow col s e).length < 5
      · rw [if_pos hlen]
      · rw [if_neg hlen]
        obtain ⟨msg, hmsg⟩ := haa (t.seriesWindow col s e)
        rw [hmsg]

theorem arimaFoldl_autoFail {μ V : Type} (t : Table V) (col : String)
    (span : Int) (env : ArimaEnv μ V)
    (haa : ∀ y, ∃ msg, env.autoArima y = Except.error msg)
    (days : List Int) (st : ArimaState μ V) :
    (days.foldl (arimaStep t col span env) st).preds
      = st.preds ++ days.map (fun _ => none) := by
  induction days generalizing st with
  | nil => simp
  | cons d ds ih =>
      simp only [List.foldl_cons, List.map_cons]
      rw [arimaStep_autoFail t col span env haa st d, ih]
      simp

theorem lstmStep_invariant {μ σ V : Type} (t : Table V) (cols : List String)
    (target : String) (span : Int) (lb ri : Nat) (env : LstmEnv μ σ V)
    (hri : 1 < ri)
    (hft : ∀ rows, ∃ sc scaled,
      env.fitTransform rows = Except.ok (sc, scaled) ∧ scaled.length = rows.length)
    (hkf : ∀ X y, ∃ m, env.kerasFit X y = Except.ok m)
    (hsm : ∀ m, env.saveModel m = Except.ok ())
    (hss : ∀ sc, env.saveScaler sc = Except.ok ())
    (day : Int)
    (hday : max t.minDate (day - span) < day - 1
        ∧ lb + 1 ≤ (t.windowRows cols (max t.minDate (day - span)) (day - 1)).length)
    (st : LstmState μ σ V) (hst : LstmInv ri st) :
    LstmInv ri (lstmStep t cols target span lb ri env st day)
    ∧ (lstmStep t cols target span lb ri env st day).counter = st.counter + 1 := by
  unfold lstmStep
  rw [selectWindow_some hday.1]
  dsimp only
  rw [if_neg (Nat.not_lt.mpr hday.2)]
  by_cases hcond : (st.counter + 1) % ri = 0 ∨ st.modelCurrent.isNone = true
  · rw [if_pos hcond]
    obtain ⟨sc, scaled, hfeq, hlen⟩ :=
      hft (t.windowRows cols (max t.minDate (day - span)) (day - 1))
    rw [hfeq]
    dsimp only
    obtain ⟨m, hkeq⟩ := hkf (createSequences scaled (cols.indexOf target) lb env.zero).1
      (createSequences scaled (cols.indexOf target) lb env.zero).2
    have hbuild : buildAndTrainLstm env scaled (cols.indexOf target) lb
        = Except.ok (some m) := by
      unfold buildAndTrainLstm
      rw [if_neg (by rw [createSequences_fst_length]; omega), hkeq]
      rfl
    rw [hbuild]
    dsimp only
    rw [show saveModelObject env (some m) = Except.ok () from hsm m]
    dsimp only
    rw [hss sc]
    dsimp only
    unfold lstmAfterBranch LstmInv
    dsimp only
    refine ⟨Or.inr ⟨by omega, rfl, rfl, ?_⟩, rfl⟩
    rcases hst with ⟨hc0, hmn, hr0⟩ | ⟨hc1, hms, hscs, hr⟩
    · rw [hr0, hc0, Nat.div_eq_of_lt hri]
    · have hmod : (st.counter + 1) % ri = 0 := by
        rcases hcond with h | h
        · exact h
        · rw [Option.isSome_iff_exists] at hms
          obtain ⟨mm, hmm⟩ := hms
          rw [hmm] at h
          simp at h
      rw [hr, Nat.succ_div, if_pos (Nat.dvd_iff_mod_eq_zero.mpr hmod)]
  · rw [if_neg hcond]
    rcases hst with ⟨hc0, hmn, hr0⟩ | ⟨hc1, hms, hscs, hr⟩
    · exact absurd (Or.inr (by rw [hmn]; rfl)) hcond
    · obtain ⟨m, hm⟩ := Option.isSome_iff_exists.mp hms
      obtain ⟨sc, hsc⟩ := Option.isSome_iff_exists.mp hscs
      unfold lstmAfterBranch LstmInv
      rw [hm, hsc]
      dsimp only
      refine ⟨Or.inr ⟨by omega, rfl, rfl, ?_⟩, rfl⟩
      have hmod : ¬ (st.counter + 1) % ri = 0 := fun h => hcond (Or.inl h)
      rw [hr, Nat.succ_div,
        if_neg (fun h => hmod (Nat.dvd_iff_mod_eq_zero.mp h)), Nat.add_zero]

theorem lstmFoldl_invariant {μ σ V : Type} (t : Table V) (cols : List String)
    (target : String) (span : Int) (lb ri : Nat) (env : LstmEnv μ σ V)
    (hri : 1 < ri)
    (hft : ∀ rows, ∃ sc scaled,
      env.fitTransform rows = Except.ok (sc, scaled) ∧ scaled.length = rows.length)
    (hkf : ∀ X y, ∃ m, env.kerasFit X y = Except.ok m)
    (hsm : ∀ m, env.saveModel m = Except.ok ())
    (hss : ∀ sc, env.saveScaler sc = Except.ok ())
    (days : List Int)
    (hdays : ∀ day ∈ days, max t.minDate (day - span) < day - 1
        ∧ lb + 1 ≤ (t.windowRows cols (max t.minDate (day - span)) (day - 1)).length)
    (st : LstmState μ σ V) (hst : LstmInv ri st) :
    LstmInv ri (days.foldl (lstmStep t cols target span lb ri env) st)
    ∧ (days.foldl (lstmStep t cols target span lb ri env) st).counter
        = st.counter + days.length := by
  induction days generalizing st with
  | nil => exact ⟨hst, by simp⟩
  | cons d ds ih =>
      obtain ⟨hinv, hcnt⟩ := lstmStep_invariant t cols target span lb ri env hri
        hft hkf hsm hss d (hdays d (List.mem_cons_self d ds)) st hst
      obtain ⟨hinv2, hcnt2⟩ := ih (fun x hx => hdays x (List.mem_cons_of_mem d hx))
        (lstmStep t cols target span lb ri env st d) hinv
      refine ⟨by simpa using hinv2, ?_⟩
      simp only [List.foldl_cons, List.length_cons]
      rw [hcnt2, hcnt]
      omega

theorem range_map_getD {α : Type} (n i : Nat) (f : Nat → α) (d : α) (h : i < n) :
    ((List.range n).map f).getD i d = f i := by
  simp [List.getD_eq_getElem?_getD, List.getElem?_range, h]

theorem take_drop_getD {α : Type} (rows : List α) (i lb j : Nat) (d : α)
    (h : j < lb) :
    ((rows.drop i).take lb).getD j d = rows.getD (i + j) d := by
  simp [List.getD_eq_getElem?_getD, List.getElem?_take, h, List.getElem?_drop]

theorem drop_headD_getD {α : Type} (l : List α) (n : Nat) (d : α) :
    (l.drop n).headD d = l.getD n d := by
  rw [List.headD_eq_head?_getD, List.head?_drop, List.getD_eq_getElem?_getD]

/-! ### Claim theorems -/

/-- C1, counterexample: with the default retrain interval 5 and a run of
exactly N = 5 evaluation dates with valid windows (a fully populated
10-day table, cutoff after day 4), the sequence-model sweep executes the
retrain branch twice — on the first valid date (empty cache) and again
when the step counter reaches 5 — while the claim's formula
`ceil(N / retrainInterval) = (5 + 5 - 1) / 5 = 1` predicts a single
retrain. -/
theorem retrain_count_ceil_counterexample :
    (runLstmColumn tenDays cols2 "Open" 100 5 1 5 envOK).retrains = 2
    ∧ (5 + 5 - 1) / 5 = 1
    ∧ (runLstmColumn tenDays cols2 "Open" 100 5 1 5 envOK).retrains
        ≠ (5 + 5 - 1) / 5 := by
  refine ⟨?_, rfl, ?_⟩ <;> decide

/-- C1, amended: across N ≥ 1 evaluation dates whose windows are valid and
hold at least `lookback + 1` complete rows, with all library oracles
succeeding (scaling preserves the row count) and a retrain interval of at
least 2, the sequence model is retrained on exactly
`floor(N / retrainInterval) + 1` occasions: once on the first valid date
(empty cache) and once each time the step counter reaches a multiple of
the interval.  This equals `ceil(N / retrainInterval)` except when N is a
positive multiple of the interval, where it is one more.  With no valid
date there is no retrain. -/
theorem retrain_count_amended {μ σ V : Type} (t : Table V) (cols : List String)
    (target : String) (span gap : Int) (lb ri : Nat) (env : LstmEnv μ σ V)
    (hri : 1 < ri)
    (hft : ∀ rows, ∃ sc scaled,
      env.fitTransform rows = Except.ok (sc, scaled) ∧ scaled.length = rows.length)
    (hkf : ∀ X y, ∃ m, env.kerasFit X y = Except.ok m)
    (hsm : ∀ m, env.saveModel m = Except.ok ())
    (hss : ∀ sc, env.saveScaler sc = Except.ok ())
    (hdays : ∀ day ∈ testIndexOf t gap, max t.minDate (day - span) < day - 1
        ∧ lb + 1 ≤ (t.windowRows cols (max t.minDate (day - span)) (day - 1)).length) :
    (runLstmColumn t cols target span gap lb ri env).retrains
      = if (testIndexOf t gap).length = 0 then 0
        else (testIndexOf t gap).length / ri + 1 := by
  unfold runLstmColumn
  obtain ⟨hinv, hcnt⟩ := lstmFoldl_invariant t cols target span lb ri env hri
    hft hkf hsm hss (testIndexOf t gap) hdays initLstmState (Or.inl ⟨rfl, rfl, rfl⟩)
  have hN : (List.foldl (lstmStep t cols target span lb ri env) initLstmState
      (testIndexOf t gap)).counter = (testIndexOf t gap).length := by
    rw [hcnt]
    simp [initLstmState]
  rcases hinv with ⟨hc0, _, hr0⟩ | ⟨hc1, _, _, hr⟩
  · rw [hc0] at hN
    rw [hr0, if_pos hN.symm]
  · rw [hN] at hc1 hr
    rw [hr, if_neg (by omega)]

theorem retrain_count_amended_witness :
    (runLstmColumn tenDays cols2 "Open" 100 5 1 5 envOK).retrains
      = if (testIndexOf tenDays 5).length = 0 then 0
        else (testIndexOf tenDays 5).length / 5 + 1 :=
  retrain_count_amended tenDays cols2 "Open" 100 5 1 5 envOK (by omega)
    (fun rows => ⟨(), rows, rfl, rfl⟩) (fun X y => ⟨(), rfl⟩)
    (fun _ => rfl) (fun _ => rfl) (by decide)

/-- C2: the rolling-window selector judges a window Invalid exactly when
`max(minDate, evalDate - windowSpan) >= evalDate - 1 day`, a condition on
dates only (the selector never reads table content); and on an Invalid
window both forecasters append a missing prediction, leave every other
piece of loop state unchanged, and continue the sweep. -/
theorem selectWindow_invalid_iff {μ σ V : Type} (t : Table V)
    (cols : List String) (target col : String) (span : Int) (lb ri : Nat)
    (env : LstmEnv μ σ V) (aenv : ArimaEnv μ V)
    (st : LstmState μ σ V) (ast : ArimaState μ V) (minD day : Int) :
    (selectWindow minD day span = none ↔ max minD (day - span) ≥ day - 1)
    ∧ (selectWindow t.minDate day span = none →
        lstmStep t cols target span lb ri env st day
            = { st with preds := st.preds ++ [none] }
        ∧ arimaStep t col span aenv ast day
            = { ast with preds := ast.preds ++ [none] }) := by
  refine ⟨⟨fun h => ?_, fun h => ?_⟩, fun h => ⟨?_, ?_⟩⟩
  · by_contra hlt
    rw [selectWindow_some (lt_of_not_ge hlt)] at h
    exact Option.noConfusion h
  · unfold selectWindow
    rw [if_pos h]
  · unfold lstmStep
    rw [h]
  · unfold arimaStep
    rw [h]

theorem selectWindow_invalid_iff_witness :
    lstmStep tenDays cols2 "Open" 100 1 5 envOK initL 0
        = { initL with preds := initL.preds ++ [none] }
    ∧ arimaStep tenDays "Open" 100 aenvOK initA 0
        = { initA with preds := initA.preds ++ [none] } :=
  (selectWindow_invalid_iff tenDays cols2 "Open" "Open" 100 1 5 envOK aenvOK
    initL initA tenDays.minDate 0).2 (by decide)

/-- C3: for every table, column list and oracle behaviour, the prediction
series returned by either forecaster's per-column sweep has exactly one
entry (possibly missing) per evaluation date, however many per-date steps
fail or are skipped. -/
theorem prediction_series_length {μ σ V : Type} (t : Table V)
    (cols : List String) (target col : String) (span gap : Int) (lb ri : Nat)
    (env : LstmEnv μ σ V) (aenv : ArimaEnv μ V) :
    (runLstmColumn t cols target span gap lb ri env).preds.length
        = (testIndexOf t gap).length
    ∧ (runArimaColumn t col span gap aenv).preds.length
        = (testIndexOf t gap).length := by
  constructor
  · unfold runLstmColumn
    rw [lstmFoldl_preds_length]
    simp [initLstmState]
  · unfold runArimaColumn
    rw [arimaFoldl_preds_length]
    simp [initArimaState]

/-- C4: exceptions raised inside the evaluation sweep are caught at the
offending date.  With oracles that raise on every training call (scaler
fit for the sequence model, order search for the autoregressive model),
both sweeps still terminate normally and return a full-length series with
a missing prediction for every date — no exception reaches the caller and
every subsequent date is still processed. -/
theorem per_date_exception_isolation {μ σ V : Type} (t : Table V)
    (cols : List String) (target col : String) (span gap : Int) (lb ri : Nat)
    (env : LstmEnv μ σ V) (aenv : ArimaEnv μ V)
    (hft : ∀ rows, ∃ msg, env.fitTransform rows = Except.error msg)
    (haa : ∀ y, ∃ msg, aenv.autoArima y = Except.error msg) :
    (runLstmColumn t cols target span gap lb ri env).preds
        = (testIndexOf t gap).map (fun _ => none)
    ∧ (runArimaColumn t col span gap aenv).preds
        = (testIndexOf t gap).map (fun _ => none) := by
  constructor
  · unfold runLstmColumn
    rw [lstmFoldl_fitFail t cols target span lb ri env hft _ initLstmState rfl]
    simp [initLstmState]
  · unfold runArimaColumn
    rw [arimaFoldl_autoFail t col span aenv haa]
    simp [initArimaState]

theorem per_date_exception_isolation_witness :
    (runLstmColumn tenDays cols2 "Open" 100 5 1 5 envFitFails).preds
        = (testIndexOf tenDays 5).map (fun _ => none)
    ∧ (runArimaColumn tenDays "Open" 100 5 aenvFails).preds
        = (testIndexOf tenDays 5).map (fun _ => none) :=
  per_date_exception_isolation tenDays cols2 "Open" "Open" 100 5 1 5
    envFitFails aenvFails
    (fun _ => ⟨"fit failed", rfl⟩) (fun _ => ⟨"auto_arima failed", rfl⟩)

/-- C5: when the retrain branch runs and the scaler fit or the network
training raises, the step appends a missing prediction and increments the
counter but leaves the cached model and scaler exactly as they were — the
cache is never demoted to Empty by a training failure. -/
theorem training_failure_cache_unchanged {μ σ V : Type} (t : Table V)
    (cols : List String) (target : String) (span : Int) (lb ri : Nat)
    (env : LstmEnv μ σ V) (st : LstmState μ σ V) (day s e : Int) (msg : String)
    (hwin : selectWindow t.minDate day span = some (s, e))
    (hrows : lb + 1 ≤ (t.windowRows cols s e).length)
    (hretrain : (st.counter + 1) % ri = 0 ∨ st.modelCurrent.isNone = true)
    (hfail : env.fitTransform (t.windowRows cols s e) = Except.error msg
      ∨ ∃ sc scaled,
          env.fitTransform (t.windowRows cols s e) = Except.ok (sc, scaled)
          ∧ buildAndTrainLstm env scaled (cols.indexOf target) lb
              = Except.error msg) :
    lstmStep t cols target span lb ri env st day
      = { st with counter := st.counter + 1, retrains := st.retrains + 1,
                  preds := st.preds ++ [none] } := by
  unfold lstmStep
  rw [hwin]
  dsimp only
  rw [if_neg (Nat.not_lt.mpr hrows), if_pos hretrain]
  rcases hfail with h | ⟨sc, scaled, hok, hb⟩
  · rw [h]
  · rw [hok]
    dsimp only
    rw [hb]

theorem training_failure_cache_unchanged_witness :
    lstmStep tenDays cols2 "Open" 100 1 5 envFitFails initL 5
      = { initL with counter := 1, retrains := 1, preds := initL.preds ++ [none] } :=
  training_failure_cache_unchanged tenDays cols2 "Open" 100 1 5 envFitFails
    initL 5 0 4 "fit failed" (by decide) (by decide)
    (Or.inr rfl) (Or.inl rfl)

/-- C6: on a scaled table of `L` rows with lookback `K`, the supervised
sequence builder produces exactly `L - K` input/target pairs (truncated
subtraction: zero pairs when `L ≤ K`); the `i`-th input is the `K`-row
slice `[i, i+K)` across all feature columns and the `i`-th target is the
target column's entry of row `i + K`; and with `L ≤ K` the training
routine returns no model (`pure none`) instead of raising. -/
theorem createSequences_supervised_pairs {μ σ V : Type} (env : LstmEnv μ σ V)
    (rows : List (List V)) (tIdx lb : Nat) (d0 : V) :
    (createSequences rows tIdx lb d0).1.length = rows.length - lb
    ∧ (createSequences rows tIdx lb d0).2.length = rows.length - lb
    ∧ (∀ i, i < rows.length - lb →
        ((createSequences rows tIdx lb d0).1.getD i []).length = lb
        ∧ (∀ j, j < lb →
            ((createSequences rows tIdx lb d0).1.getD i []).getD j []
              = rows.getD (i + j) [])
        ∧ (createSequences rows tIdx lb d0).2.getD i d0
            = (rows.getD (i + lb) []).getD tIdx d0)
    ∧ (rows.length ≤ lb → buildAndTrainLstm env rows tIdx lb = pure none) := by
  refine ⟨createSequences_fst_length rows tIdx lb d0, by simp [createSequences],
    fun i hi => ⟨?_, fun j hj => ?_, ?_⟩, fun hle => ?_⟩
  · unfold createSequences
    rw [range_map_getD _ _ _ _ hi]
    simp only [List.length_take, List.length_drop]
    omega
  · unfold createSequences
    rw [range_map_getD _ _ _ _ hi, take_drop_getD _ _ _ _ _ hj]
  · unfold createSequences
    rw [range_map_getD _ _ _ _ hi, drop_headD_getD]
  · unfold buildAndTrainLstm
    rw [if_pos (by rw [createSequences_fst_length]; omega)]

theorem createSequences_supervised_pairs_witness :
    (createSequences rows3 1 2 (0 : Int)).1.length = 1
    ∧ ((createSequences rows3 1 2 (0 : Int)).1.getD 0 []).getD 1 []
        = rows3.getD 1 []
    ∧ (createSequences rows3 1 2 (0 : Int)).2.getD 0 0
        = (rows3.getD 2 []).getD 1 0
    ∧ buildAndTrainLstm envOK [[1, 2]] 1 2 = pure none :=
  ⟨(createSequences_supervised_pairs envOK rows3 1 2 0).1,
   ((createSequences_supervised_pairs envOK rows3 1 2 0).2.2.1 0 (by decide)).2.1
      1 (by decide),
   ((createSequences_supervised_pairs envOK rows3 1 2 0).2.2.1 0 (by decide)).2.2,
   (createSequences_supervised_pairs envOK [[1, 2]] 1 2 0).2.2.2 (by decide)⟩

/-- C7: for a date whose calendar window is valid but whose window holds
fewer complete rows than the minimum-observation threshold (`lookback + 1`
for the sequence model, 5 for the autoregressive model), the step appends
a missing prediction, leaves all loop state (including the step counter)
unchanged, and the sweep continues — the step is a total function, so no
exception is possible. -/
theorem min_observation_threshold_missing {μ σ V : Type} (t : Table V)
    (cols : List String) (target col : String) (span : Int) (lb ri : Nat)
    (env : LstmEnv μ σ V) (aenv : ArimaEnv μ V)
    (st : LstmState μ σ V) (ast : ArimaState μ V) (day s e : Int)
    (hwin : selectWindow t.minDate day span = some (s, e)) :
    ((t.windowRows cols s e).length < lb + 1 →
      lstmStep t cols target span lb ri env st day
        = { st with preds := st.preds ++ [none] })
    ∧ ((t.seriesWindow col s e).length < 5 →
      arimaStep t col span aenv ast day
        = { ast with preds := ast.preds ++ [none] }) := by
  constructor
  · intro h
    unfold lstmStep
    rw [hwin]
    dsimp only
    rw [if_pos h]
  · intro h
    unfold arimaStep
    rw [hwin]
    dsimp only
    rw [if_pos h]

theorem min_observation_threshold_missing_witness :
    lstmStep sparseTable cols2 "Open" 100 1 5 envOK initL 9
        = { initL with preds := initL.preds ++ [none] }
    ∧ arimaStep sparseTable "Open" 100 aenvOK initA 9
        = { initA with preds := initA.preds ++ [none] } :=
  ⟨(min_observation_threshold_missing sparseTable cols2 "Open" "Open" 100 1 5
      envOK aenvOK initL initA 9 0 8 (by decide)).1 (by decide),
   (min_observation_threshold_missing sparseTable cols2 "Open" "Open" 100 1 5
      envOK aenvOK initL initA 9 0 8 (by decide)).2 (by decide)⟩

/-- C8: in the evaluator's per-column block, provided ground truth is
present on the common test index (the data invariant of the pipeline),
no metric pair is computed exactly when the column's valid date set —
dates where truth and both models' predictions are simultaneously
present — is empty; the column is then reported as having no valid
forecast (`none`), with no NaN or zero metric emitted. -/
theorem evaluator_empty_valid_set {V M : Type}
    (truthAt arimaAt lstmAt : Int → Option V) (commonIdx : List Int)
    (rmse mape : List (Option V) → List V → M)
    (htruth : ∀ d ∈ commonIdx, (truthAt d).isSome = true) :
    evaluateColumn truthAt arimaAt lstmAt commonIdx rmse mape = none
      ↔ commonIdx.filter
          (fun d => (truthAt d).isSome && (arimaAt d).isSome && (lstmAt d).isSome)
          = [] := by
  unfold evaluateColumn evalValidIndex
  have hfeq : commonIdx.filter (fun d => (arimaAt d).isSome && (lstmAt d).isSome)
      = commonIdx.filter
          (fun d => (truthAt d).isSome && (arimaAt d).isSome && (lstmAt d).isSome) := by
    apply List.filter_congr
    intro d hd
    rw [htruth d hd]
    simp
  rw [hfeq]
  by_cases hE : (commonIdx.filter
      (fun d => (truthAt d).isSome && (arimaAt d).isSome && (lstmAt d).isSome)).isEmpty
  · rw [if_pos hE]
    rw [List.isEmpty_iff] at hE
    simp [hE]
  · rw [if_neg hE]
    rw [List.isEmpty_iff] at hE
    simp [hE]

theorem evaluator_empty_valid_set_witness :
    evaluateColumn truthOne noneAt truthOne [0]
      (fun _ _ => (0 : Int)) (fun _ _ => (0 : Int)) = none :=
  (evaluator_empty_valid_set truthOne noneAt truthOne [0]
    (fun _ _ => (0 : Int)) (fun _ _ => (0 : Int)) (by decide)).mpr (by decide)

/-- C9: the autoregressive forecaster's `retrain` flag gates only the
persistence of the last fitted model artifact; the returned forecast
series are identical for any two values of the flag, over every table,
column list, window span, cutoff and oracle behaviour. -/
theorem runArima_retrain_flag_forecast_invariant {μ V : Type} (t : Table V)
    (cols : List String) (span gap : Int) (env : ArimaEnv μ V) (r1 r2 : Bool) :
    (runArima t cols span gap env r1).forecasts
      = (runArima t cols span gap env r2).forecasts := rfl

/-- C10: when the retrain branch trains successfully but saving the model
(or the scaler) to disk raises, the exception is handled by the same
per-date handler as a training failure: a missing prediction is appended
and the prediction phase is skipped for that date, yet the cache already
holds the freshly trained model and scaler (the assignments of
`lstmModel.py` lines 176-177 precede the saves of lines 184-185), so later
dates reuse the new artifacts. -/
theorem save_failure_treated_as_training_failure {μ σ V : Type} (t : Table V)
    (cols : List String) (target : String) (span : Int) (lb ri : Nat)
    (env : LstmEnv μ σ V) (st : LstmState μ σ V) (day s e : Int) (sc : σ)
    (scaled : List (List V)) (m : μ) (msg : String)
    (hwin : selectWindow t.minDate day span = some (s, e))
    (hrows : lb + 1 ≤ (t.windowRows cols s e).length)
    (hretrain : (st.counter + 1) % ri = 0 ∨ st.modelCurrent.isNone = true)
    (hfit : env.fitTransform (t.windowRows cols s e) = Except.ok (sc, scaled))
    (htrain : buildAndTrainLstm env scaled (cols.indexOf target) lb
        = Except.ok (some m))
    (hsave : env.saveModel m = Except.error msg
      ∨ (env.saveModel m = Except.ok () ∧ env.saveScaler sc = Except.error msg)) :
    lstmStep t cols target span lb ri env st day
      = { st with counter := st.counter + 1, retrains := st.retrains + 1,
                  modelCurrent := some m, scalerCurrent := some sc,
                  preds := st.preds ++ [none] } := by
  unfold lstmStep
  rw [hwin]
  dsimp only
  rw [if_neg (Nat.not_lt.mpr hrows), if_pos hretrain, hfit]
  dsimp only
  rw [htrain]
  dsimp only
  rcases hsave with h | ⟨h1, h2⟩
  · rw [show saveModelObject env (some m) = Except.error msg from h]
  · rw [show saveModelObject env (some m) = Except.ok () from h1]
    dsimp only
    rw [h2]

theorem save_failure_treated_as_training_failure_witness :
    lstmStep tenDays cols2 "Open" 100 1 5 envSaveFails initL 5
      = { initL with counter := 1, retrains := 1, modelCurrent := some (), scalerCurrent := some (), preds := initL.preds ++ [none] } :=
  save_failure_treated_as_training_failure tenDays cols2 "Open" 100 1 5
    envSaveFails initL 5 0 4 () (tenDays.windowRows cols2 0 4) () "save failed"
    (by decide) (by decide) (Or.inr rfl) rfl rfl (Or.inl rfl)

end StockPrediction
